import Mathlib

/-!
Verification development for the SandyBot email-to-scheduled-task pipeline
(`sandybot/email_utils.py` and `sandybot/database.py`).

Text is modelled as `List Char` (ASCII inputs).  Python regular-expression
searches are embedded as explicit scanners that reproduce the leftmost-match
and greedy-with-backtracking behaviour of the patterns appearing in the
source.  The relational store is modelled as an explicit state record and the
SQLAlchemy operations as pure state transformers.
-/

namespace Sandy

/-- Python `\s` / `str.strip` whitespace, ASCII range. -/
def esEspacio (c : Char) : Bool :=
  c = ' ' || c = '\t' || c = '\n' || c = '\r' || c = '\x0b' || c = '\x0c'

/-- ASCII decimal digit, as matched by `\d` / `str.isdigit` on ASCII text. -/
def esDigito (c : Char) : Bool :=
  '0' ≤ c && c ≤ '9'

/-- ASCII letter. -/
def esLetra (c : Char) : Bool :=
  ('a' ≤ c && c ≤ 'z') || ('A' ≤ c && c ≤ 'Z')

/-- Python `\w` word character (ASCII): letter, digit or underscore. -/
def esPalabra (c : Char) : Bool :=
  esLetra c || esDigito c || c = '_'

/-- ASCII lower-casing, as used by `str.lower` / `re.I` on ASCII text. -/
def minuscula (c : Char) : Char :=
  if 'A' ≤ c && c ≤ 'Z' then Char.ofNat (c.toNat + 32) else c

/-- ASCII upper-casing, as used by `str.upper` on ASCII text. -/
def mayuscula (c : Char) : Char :=
  if 'a' ≤ c && c ≤ 'z' then Char.ofNat (c.toNat - 32) else c

def mayusculas (s : List Char) : List Char := s.map mayuscula

/-- Case-insensitive character comparison (`re.I`). -/
def eqCI (a b : Char) : Bool := minuscula a = minuscula b

/-- If `pat` is a case-insensitive prefix of `s`, return the remainder. -/
def prefijoCI : List Char → List Char → Option (List Char)
  | [], s => some s
  | _ :: _, [] => none
  | p :: ps, c :: cs => if eqCI p c then prefijoCI ps cs else none

/-- Case-insensitive substring test (an unanchored `re.search` of a literal). -/
def contieneCI (pat : List Char) : List Char → Bool
  | [] => (prefijoCI pat []).isSome
  | c :: resto => (prefijoCI pat (c :: resto)).isSome || contieneCI pat resto

/-- Python `str.strip()`: drop surrounding whitespace. -/
def recortar (s : List Char) : List Char :=
  ((s.dropWhile esEspacio).reverse.dropWhile esEspacio).reverse

/-- Python `str.splitlines()` restricted to `\n`, `\r` and `\r\n` separators. -/
def dividirLineas : List Char → List (List Char)
  | [] => []
  | '\r' :: '\n' :: r => [] :: dividirLineas r
  | c :: resto =>
    if c = '\n' || c = '\r' then [] :: dividirLineas resto
    else
      match dividirLineas resto with
      | [] => [[c]]
      | l :: ls => (c :: l) :: ls

/-- Python `str.split()` with no argument: split on whitespace runs, no empties. -/
def dividirEspacios : List Char → List (List Char)
  | [] => []
  | c :: resto =>
    if esEspacio c then dividirEspacios resto
    else
      match dividirEspacios resto with
      | [] => [[c]]
      | l :: ls =>
        match resto with
        | [] => [[c]]
        | d :: _ => if esEspacio d then [c] :: l :: ls else (c :: l) :: ls

/-- Python `str.split(",")`: split on every comma, keeping empty pieces. -/
def dividirEnComas : List Char → List (List Char)
  | [] => [[]]
  | c :: resto =>
    if c = ',' then [] :: dividirEnComas resto
    else
      match dividirEnComas resto with
      | [] => [[c]]
      | l :: ls => (c :: l) :: ls

/-- `"\n".join` of a list of lines. -/
def unirConNL (ls : List (List Char)) : List Char :=
  match ls with
  | [] => []
  | l :: resto => l ++ (resto.map (fun x => '\n' :: x)).flatten

/-- Python `str.strip("<>")`: drop `<` and `>` from both ends. -/
def recortarAngulos (s : List Char) : List Char :=
  let esAng := fun c => c = '<' || c = '>'
  ((s.dropWhile esAng).reverse.dropWhile esAng).reverse

/-- Numeric value of a digit string (`int(ident)` on an `isdigit` string). -/
def aNat (s : List Char) : Nat :=
  s.foldl (fun acc c => acc * 10 + (c.toNat - '0'.toNat)) 0

/-- Python truthiness of an optional string (`None` and `""` are falsy). -/
def textoFalsy : Option (List Char) → Bool
  | none => true
  | some l => l.isEmpty

/-! ### Normalizer: `_limpiar_correo` -/

/-- Continuation of the `correo(?:\s+electronico)?\s*(?:es\s+)?privado` pattern
after `\s*`: the optional `es\s+` followed by the literal `privado`, trying the
optional branch first as the regex engine does. -/
def finPrivado (t : List Char) : Bool :=
  let t' := t.dropWhile esEspacio
  (match prefijoCI ['e', 's'] t' with
   | some u =>
     match u with
     | c :: _ =>
       esEspacio c && (prefijoCI ['p','r','i','v','a','d','o'] (u.dropWhile esEspacio)).isSome
     | [] => false
   | none => false)
  || (prefijoCI ['p','r','i','v','a','d','o'] t').isSome

/-- After the literal `correo`: the optional `\s+electronico` branch (tried
first), then `finPrivado`. -/
def trasCorreo (r : List Char) : Bool :=
  (match r with
   | c :: _ =>
     esEspacio c
       && (match prefijoCI ['e','l','e','c','t','r','o','n','i','c','o'] (r.dropWhile esEspacio) with
           | some r2 => finPrivado r2
           | none => false)
   | [] => false)
  || finPrivado r

/-- `re.search(r"correo(?:\s+electronico)?\s*(?:es\s+)?privado", l, re.I)` as a
Boolean: some position of `l` starts a match. -/
def buscaCorreoPrivado : List Char → Bool
  | [] => false
  | c :: resto =>
    (match prefijoCI ['c','o','r','r','e','o'] (c :: resto) with
     | some r => trasCorreo r
     | none => false)
    || buscaCorreoPrivado resto

/-- One line matches the legal-disclaimer alternation of `_limpiar_correo`:
`disclaimer|confidencial|aviso legal|confidentiality notice|`
`correo(?:\s+electronico)?\s*(?:es\s+)?privado` under `re.I`. -/
def lineaAvisoLegal (l : List Char) : Bool :=
  contieneCI "disclaimer".toList l
  || contieneCI "confidencial".toList l
  || contieneCI "aviso legal".toList l
  || contieneCI "confidentiality notice".toList l
  || buscaCorreoPrivado l

/-- Loop body of `_limpiar_correo`: strip each line, skip empties, stop at the
first disclaimer line. -/
def lineasLimpias : List (List Char) → List (List Char)
  | [] => []
  | linea :: resto =>
    let l := recortar linea
    if l.isEmpty then lineasLimpias resto
    else if lineaAvisoLegal l then []
    else l :: lineasLimpias resto

/-- `_limpiar_correo` from `email_utils.py`. -/
def _limpiar_correo (texto : List Char) : List Char :=
  unirConNL (lineasLimpias (dividirLineas texto))

/-! ### Field searches of `_extraer_por_regex`

`inicio[:\s-]+([^\n\r]+)` (and the same shape for `fin` and `carrier`): a
case-insensitive label, one or more separator characters, then a non-empty
capture running to the end of the line.  The separator run is greedy and the
engine backtracks into it when nothing is left to capture. -/

/-- The `[:\s-]` separator class. -/
def esSeparador (c : Char) : Bool :=
  c = ':' || c = '-' || esEspacio c

/-- `([^\n\r]+)`: the maximal non-empty run of non-newline characters. -/
def capturaLinea (s : List Char) : Option (List Char) :=
  let r := s.takeWhile (fun c => !(c = '\n' || c = '\r'))
  if r.isEmpty then none else some r

/-- Greedy `[:\s-]+` followed by a capture, with backtracking: having consumed
at least one separator, prefer consuming further separators and fall back to
starting the capture at the current character. -/
def masSeparadores (captura : List Char → Option (List Char)) : List Char → Option (List Char)
  | [] => none
  | c :: resto =>
    if esSeparador c then
      match masSeparadores captura resto with
      | some cap => some cap
      | none => captura (c :: resto)
    else captura (c :: resto)

/-- `[:\s-]+` then `captura`, requiring at least one separator. -/
def sepLuegoCaptura (captura : List Char → Option (List Char)) : List Char → Option (List Char)
  | [] => none
  | c :: resto => if esSeparador c then masSeparadores captura resto else none

/-- `re.search(et + r"[:\s-]+([^\n\r]+)", texto, re.I)`, returning group 1. -/
def buscarEtiqueta (et : List Char) : List Char → Option (List Char)
  | [] => none
  | c :: resto =>
    match prefijoCI et (c :: resto) with
    | some r =>
      (match sepLuegoCaptura capturaLinea r with
       | some cap => some cap
       | none => buscarEtiqueta et resto)
    | none => buscarEtiqueta et resto

/-- The `[A-Z0-9,\- ]` class under `re.I`. -/
def esClaseIds (c : Char) : Bool :=
  esLetra c || esDigito c || c = ',' || c = '-' || c = ' '

/-- `([A-Z0-9,\- ]+)`: maximal non-empty run of identifier-list characters. -/
def capturaIds (s : List Char) : Option (List Char) :=
  let r := s.takeWhile esClaseIds
  if r.isEmpty then none else some r

/-- The optional `(?:\s+afectados)?` after the label, greedy. -/
def trasAfectados (r : List Char) : Option (List Char) :=
  match r with
  | c :: _ =>
    if esEspacio c then prefijoCI ['a','f','e','c','t','a','d','o','s'] (r.dropWhile esEspacio)
    else none
  | [] => none

/-- After the literal `servicio`: optional `s`, optional `\s+afectados`, then
`[:\s-]+([A-Z0-9,\- ]+)`, exploring the optional branches in the greedy order
of the regex engine. -/
def trasServicio (r0 : List Char) : Option (List Char) :=
  let conAfect := fun (r : List Char) =>
    (match trasAfectados r with
     | some r2 =>
       (match sepLuegoCaptura capturaIds r2 with
        | some cap => some cap
        | none => sepLuegoCaptura capturaIds r)
     | none => sepLuegoCaptura capturaIds r)
  match r0 with
  | c :: r1 =>
    if eqCI c 's' then
      match conAfect r1 with
      | some cap => some cap
      | none => conAfect r0
    else conAfect r0
  | [] => none

/-- `re.search(r"servicios?(?:\s+afectados)?[:\s-]+([A-Z0-9,\- ]+)", texto, re.I)`. -/
def buscarServicios : List Char → Option (List Char)
  | [] => none
  | c :: resto =>
    match prefijoCI ['s','e','r','v','i','c','i','o'] (c :: resto) with
    | some r =>
      (match trasServicio r with
       | some cap => some cap
       | none => buscarServicios resto)
    | none => buscarServicios resto

/-- The identifier list of the fast path:
`[i.strip() for i in grupo.split(",") if i.strip()]`. -/
def idsDesdeCaptura (grupo : List Char) : List (List Char) :=
  ((dividirEnComas grupo).map recortar).filter (fun i => !i.isEmpty)

/-- Structured extraction result: the dict built by `_extraer_por_regex` and,
on the fallback path, the schema-validated JSON object (keys `inicio`, `fin`,
`tipo`, `ids` required; `afectacion`, `descripcion` optional). -/
structure DatosExtraccion where
  inicio : List Char
  fin : List Char
  tipo : List Char
  afectacion : Option (List Char)
  descripcion : Option (List Char)
  ids : List (List Char)
deriving DecidableEq, Repr

/-- `_extraer_por_regex` from `email_utils.py`: all three fields or nothing. -/
def _extraer_por_regex (texto : List Char) : Option DatosExtraccion :=
  match buscarEtiqueta "inicio".toList texto,
        buscarEtiqueta "fin".toList texto,
        buscarServicios texto with
  | some i, some f, some s =>
    some { inicio := recortar i
           fin := recortar f
           tipo := "Mantenimiento".toList
           afectacion := none
           descripcion := none
           ids := idsDesdeCaptura s }
  | _, _, _ => none

/-! ### Sniffer: `_detectar_datos_correo` -/

/-- `\s*([^\n]+)` after a literal, greedy with backtracking into the space run
(`[^\n]` also matches spaces and `\r`). -/
def espaciosLuegoCapturaNL : List Char → Option (List Char)
  | [] => none
  | c :: resto =>
    if esEspacio c then
      match espaciosLuegoCapturaNL resto with
      | some g => some g
      | none =>
        let r := (c :: resto).takeWhile (fun d => d ≠ '\n')
        if r.isEmpty then none else some r
    else
      let r := (c :: resto).takeWhile (fun d => d ≠ '\n')
      if r.isEmpty then none else some r

/-- `re.search(et + r"\s*([^\n]+)", texto, re.I)` for `From:` / `Name:`. -/
def buscarValorTras (et : List Char) : List Char → Option (List Char)
  | [] => none
  | c :: resto =>
    match prefijoCI et (c :: resto) with
    | some r =>
      (match espaciosLuegoCapturaNL r with
       | some g => some g
       | none => buscarValorTras et resto)
    | none => buscarValorTras et resto

/-- `re.match(r"([^\-]+)-\s*METROTEL", asunto, re.I)`, returning group 1:
a non-empty dash-free prefix, a dash, spaces, then the literal `METROTEL`. -/
def matchMetrotel (asunto : List Char) : Option (List Char) :=
  let a := asunto.takeWhile (fun c => c ≠ '-')
  if a.isEmpty then none
  else
    match asunto.dropWhile (fun c => c ≠ '-') with
    | '-' :: r =>
      if (prefijoCI "metrotel".toList (r.dropWhile esEspacio)).isSome then some a else none
    | _ => none

/-- Take exactly `n` digits from the front. -/
def tomarDigitos : Nat → List Char → Option (List Char)
  | 0, _ => some []
  | _ + 1, [] => none
  | n + 1, c :: resto =>
    if esDigito c then (tomarDigitos n resto).map (fun ds => c :: ds) else none

/-- `re.search(r"SWX\d{7}", texto)`: case-sensitive, leftmost. -/
def buscarSWX : List Char → Option (List Char)
  | 'S' :: 'W' :: 'X' :: resto =>
    (match tomarDigitos 7 resto with
     | some ds => some ('S' :: 'W' :: 'X' :: ds)
     | none => buscarSWX ('W' :: 'X' :: resto))
  | _ :: resto => buscarSWX resto
  | [] => none

/-- `re.search(r"ID\w+", texto)`: case-sensitive, leftmost, greedy. -/
def buscarIDInterno : List Char → Option (List Char)
  | 'I' :: 'D' :: resto =>
    let run := resto.takeWhile esPalabra
    if run.isEmpty then buscarIDInterno ('D' :: resto) else some ('I' :: 'D' :: run)
  | _ :: resto => buscarIDInterno resto
  | [] => none

/-- `re.findall(r"CRT-\d{6}", texto)`: case-sensitive, non-overlapping.  No
match can start inside a previous match (its characters are never `C`), so
advancing one character at a time is equivalent to skipping past matches. -/
def buscarTodosCRT : List Char → List (List Char)
  | 'C' :: 'R' :: 'T' :: '-' :: resto =>
    (match tomarDigitos 6 resto with
     | some ds => ('C' :: 'R' :: 'T' :: '-' :: ds) :: buscarTodosCRT resto
     | none => buscarTodosCRT ('R' :: 'T' :: '-' :: resto))
  | _ :: resto => buscarTodosCRT resto
  | [] => []

/-- `re.findall(r"\b\d+\b", texto)`: maximal digit runs delimited by word
boundaries.  `estado` carries the digit run in progress (reversed) and
`prevPalabra` whether the previous character was a word character. -/
def buscarNumerosAux : Option (List Char) → Bool → List Char → List (List Char)
  | estado, _, [] =>
    (match estado with
     | some run => [run.reverse]
     | none => [])
  | estado, prevPalabra, c :: resto =>
    match estado with
    | some run =>
      if esDigito c then buscarNumerosAux (some (c :: run)) true resto
      else if esPalabra c then buscarNumerosAux none true resto
      else run.reverse :: buscarNumerosAux none false resto
    | none =>
      if esDigito c && !prevPalabra then buscarNumerosAux (some [c]) true resto
      else buscarNumerosAux none (esPalabra c) resto

def buscarNumeros (texto : List Char) : List (List Char) :=
  buscarNumerosAux none false texto

/-- Result dictionary of `_detectar_datos_correo`. -/
structure DatosDetectados where
  carrier : Option (List Char)
  id_interno : Option (List Char)
  ids : List (List Char)
  tipo : List Char
deriving DecidableEq, Repr

/-- `carrier_map`-based `detectar_carrier_por_remitente`: the single pattern
`.*telxius.*` matches iff the lowered address contains `telxius`. -/
def detectar_carrier_por_remitente (remitente : List Char) : Option (List Char) :=
  if contieneCI "telxius".toList remitente then some "TELXIUS".toList else none

/-- Carrier derived from the `From:`/`Name:` header value, `none` on no
header.  The outer `Option` models the `IndexError` Python would raise on a
value whose `split()` is empty or whose part before `@` is empty. -/
def carrierDesdeRemitente (texto : List Char) : Option (Option (List Char)) :=
  let m := match buscarValorTras "from:".toList texto with
           | some v => some v
           | none => buscarValorTras "name:".toList texto
  match m with
  | none => some none
  | some g =>
    let parte := recortar g
    match (dividirEspacios parte).getLast? with
    | none => none
    | some tok =>
      let correo := recortarAngulos tok
      match detectar_carrier_por_remitente correo with
      | some nombre => some (some nombre)
      | none =>
        if correo.contains '@' then
          match (dividirEspacios (correo.takeWhile (fun c => c ≠ '@'))).head? with
          | none => none
          | some t => some (some t)
        else some none

/-- `_detectar_datos_correo` from `email_utils.py`.  `none` models the
`IndexError` escape hatches of the original (empty `split()` results). -/
def _detectar_datos_correo (texto : List Char) : Option DatosDetectados :=
  let lineas := dividirLineas texto
  let asunto :=
    match lineas with
    | [] => []
    | l0 :: _ =>
      if (prefijoCI "subject:".toList l0).isSome then
        recortar ((l0.dropWhile (fun c => c ≠ ':')).drop 1)
      else recortar l0
  match carrierDesdeRemitente texto with
  | none => none
  | some carrier0 =>
    let paso2 : Option (Option (List Char)) :=
      if textoFalsy carrier0 && !asunto.isEmpty then
        match matchMetrotel asunto with
        | some grupo =>
          (match (dividirEspacios (recortar grupo)).head? with
           | none => none
           | some t => some (some t))
        | none => some carrier0
      else some carrier0
    match paso2 with
    | none => none
    | some carrier =>
      let esTelxius := mayusculas ((carrier.getD [])) = "TELXIUS".toList
      some { carrier := carrier
             id_interno := if esTelxius then buscarSWX texto else buscarIDInterno texto
             ids := if esTelxius then buscarTodosCRT texto else buscarNumeros texto
             tipo := if contieneCI "emergency".toList asunto then "Emergencia".toList
                     else "Programada".toList }

/-! ### Brace-delimited JSON substring: `re.search(r"\{.*\}", s, re.S)` -/

/-- Prefix of `s` up to and including its last closing brace, if any. -/
def hastaUltimaLlave : List Char → Option (List Char)
  | [] => none
  | c :: resto =>
    match hastaUltimaLlave resto with
    | some p => some (c :: p)
    | none => if c = '\x7d' then some [c] else none

/-- Leftmost-greedy match of `\{.*\}` with `re.S`: from the first opening
brace that is followed by a closing brace, to the last closing brace. -/
def buscarJson : List Char → Option (List Char)
  | [] => none
  | c :: resto =>
    if c = '\x7b' then
      match hastaUltimaLlave resto with
      | some p => some (c :: p)
      | none => buscarJson resto
    else buscarJson resto

/-! ### Dates: `_parse_fecha`

`datetime` instants without sub-second precision; comparison is lexicographic
on (year, month, day, hour, minute, second) as in Python. -/

structure Fecha where
  anio : Nat
  mes : Nat
  dia : Nat
  hora : Nat
  minuto : Nat
  segundo : Nat
deriving DecidableEq, Repr

/-- Python `datetime` `<`. -/
def Fecha.antesDe (a b : Fecha) : Bool :=
  if a.anio ≠ b.anio then a.anio < b.anio
  else if a.mes ≠ b.mes then a.mes < b.mes
  else if a.dia ≠ b.dia then a.dia < b.dia
  else if a.hora ≠ b.hora then a.hora < b.hora
  else if a.minuto ≠ b.minuto then a.minuto < b.minuto
  else a.segundo < b.segundo

def esBisiesto (y : Nat) : Bool :=
  y % 4 = 0 && (y % 100 ≠ 0 || y % 400 = 0)

def diasEnMes (y m : Nat) : Nat :=
  if m = 2 then (if esBisiesto y then 29 else 28)
  else if m = 4 || m = 6 || m = 9 || m = 11 then 30
  else 31

/-- `datetime(...)` construction: validates the day against the month (the
field parsers already enforce the other ranges) and the year range 1–9999. -/
def mkFecha (y mo d h mi s : Nat) : Option Fecha :=
  if 1 ≤ y && y ≤ 9999 && d ≤ diasEnMes y mo then some ⟨y, mo, d, h, mi, s⟩ else none

/-- `dt.replace(year=...)`, revalidating the day. -/
def reemplazarAnio (y : Nat) (f : Fecha) : Option Fecha :=
  if 1 ≤ y && y ≤ 9999 && f.dia ≤ diasEnMes y f.mes then some { f with anio := y } else none

def valorDe2 (a b : Char) : Nat := (a.toNat - '0'.toNat) * 10 + (b.toNat - '0'.toNat)

/-- Candidates of a 1-or-2-digit `strptime` field, two digits first, each with
the remaining input; matches the greedy alternation of `_strptime`'s regexes. -/
def candidatosCampo (ok2 ok1 : Nat → Bool) : List Char → List (Nat × List Char)
  | a :: b :: r =>
    (if esDigito a && esDigito b && ok2 (valorDe2 a b) then [(valorDe2 a b, r)] else [])
    ++ (if esDigito a && ok1 (a.toNat - '0'.toNat) then [(a.toNat - '0'.toNat, b :: r)] else [])
  | [a] => if esDigito a && ok1 (a.toNat - '0'.toNat) then [(a.toNat - '0'.toNat, [])] else []
  | [] => []

def candidatosDia : List Char → List (Nat × List Char) :=
  candidatosCampo (fun n => 1 ≤ n && n ≤ 31) (fun n => 1 ≤ n && n ≤ 9)

def candidatosMes : List Char → List (Nat × List Char) :=
  candidatosCampo (fun n => 1 ≤ n && n ≤ 12) (fun n => 1 ≤ n && n ≤ 9)

def candidatosHora : List Char → List (Nat × List Char) :=
  candidatosCampo (fun n => n ≤ 23) (fun _ => true)

def candidatosMinSeg : List Char → List (Nat × List Char) :=
  candidatosCampo (fun n => n ≤ 59) (fun _ => true)

/-- `%Y` in `_strptime` matches exactly four digits. -/
def candidatosAnio : List Char → List (Nat × List Char)
  | a :: b :: c :: d :: r =>
    if esDigito a && esDigito b && esDigito c && esDigito d then
      [(valorDe2 a b * 100 + valorDe2 c d, r)]
    else []
  | _ => []

/-- Try each candidate in order against the continuation (regex backtracking). -/
def intentar (cands : List (Nat × List Char)) (k : Nat → List Char → Option Fecha) : Option Fecha :=
  match cands with
  | [] => none
  | (v, r) :: t =>
    match k v r with
    | some f => some f
    | none => intentar t k

def trasLiteral (c : Char) : List Char → Option (List Char)
  | d :: r => if d = c then some r else none
  | [] => none

/-- Common time tail ` %H:%M` or ` %H:%M:%S` (with the leading space literal),
requiring full consumption of the input. -/
def horaMinSeg (conSegundos : Bool) (k : Nat → Nat → Nat → Option Fecha) (r : List Char) : Option Fecha :=
  (trasLiteral ' ' r).bind fun r1 =>
  intentar (candidatosHora r1) fun h r2 =>
  (trasLiteral ':' r2).bind fun r3 =>
  intentar (candidatosMinSeg r3) fun mi r4 =>
  if conSegundos then
    (trasLiteral ':' r4).bind fun r5 =>
    intentar (candidatosMinSeg r5) fun s r6 =>
    if r6.isEmpty then k h mi s else none
  else
    if r4.isEmpty then k h mi 0 else none

/-- `%Y-%m-%d %H:%M[:%S]`. -/
def formatoYMD (conSegundos : Bool) (v : List Char) : Option Fecha :=
  intentar (candidatosAnio v) fun y r1 =>
  (trasLiteral '-' r1).bind fun r2 =>
  intentar (candidatosMes r2) fun mo r3 =>
  (trasLiteral '-' r3).bind fun r4 =>
  intentar (candidatosDia r4) fun d r5 =>
  horaMinSeg conSegundos (fun h mi s => mkFecha y mo d h mi s) r5

/-- `%d/%m/%Y %H:%M[:%S]`. -/
def formatoDMY (conSegundos : Bool) (v : List Char) : Option Fecha :=
  intentar (candidatosDia v) fun d r1 =>
  (trasLiteral '/' r1).bind fun r2 =>
  intentar (candidatosMes r2) fun mo r3 =>
  (trasLiteral '/' r3).bind fun r4 =>
  intentar (candidatosAnio r4) fun y r5 =>
  horaMinSeg conSegundos (fun h mi s => mkFecha y mo d h mi s) r5

/-- `%d/%m %H:%M[:%S]`: `strptime` defaults the year to 1900 and the source
then substitutes the current year via `dt.replace`. -/
def formatoDM (conSegundos : Bool) (anioActual : Nat) (v : List Char) : Option Fecha :=
  intentar (candidatosDia v) fun d r1 =>
  (trasLiteral '/' r1).bind fun r2 =>
  intentar (candidatosMes r2) fun mo r3 =>
  horaMinSeg conSegundos (fun h mi s => (mkFecha 1900 mo d h mi s).bind (reemplazarAnio anioActual)) r3

/-- Model of `datetime.fromisoformat` restricted to the dashed, timezone-free
forms `YYYY-MM-DD`, `YYYY-MM-DD<sep>HH`, `...HH:MM`, `...HH:MM:SS` (the only
shapes a claim exercises; every other input is rejected, as the real parser
rejects the malformed inputs appearing below). -/
def horaIso (t : List Char) : Option (Nat × Nat × Nat) :=
  match t with
  | h1 :: h2 :: resto =>
    if esDigito h1 && esDigito h2 && valorDe2 h1 h2 ≤ 23 then
      match resto with
      | [] => some (valorDe2 h1 h2, 0, 0)
      | ':' :: m1 :: m2 :: resto2 =>
        if esDigito m1 && esDigito m2 && valorDe2 m1 m2 ≤ 59 then
          match resto2 with
          | [] => some (valorDe2 h1 h2, valorDe2 m1 m2, 0)
          | ':' :: s1 :: s2 :: [] =>
            if esDigito s1 && esDigito s2 && valorDe2 s1 s2 ≤ 59 then
              some (valorDe2 h1 h2, valorDe2 m1 m2, valorDe2 s1 s2)
            else none
          | _ => none
        else none
      | _ => none
    else none
  | _ => none

def fromisoformat (v : List Char) : Option Fecha :=
  match v with
  | y1 :: y2 :: y3 :: y4 :: '-' :: m1 :: m2 :: '-' :: d1 :: d2 :: resto =>
    if esDigito y1 && esDigito y2 && esDigito y3 && esDigito y4
        && esDigito m1 && esDigito m2 && esDigito d1 && esDigito d2 then
      let y := valorDe2 y1 y2 * 100 + valorDe2 y3 y4
      let mo := valorDe2 m1 m2
      let d := valorDe2 d1 d2
      if 1 ≤ mo && mo ≤ 12 && 1 ≤ d then
        match resto with
        | [] => mkFecha y mo d 0 0 0
        | _ :: t => (horaIso t).bind fun (h, mi, s) => mkFecha y mo d h mi s
      else none
    else none
  | _ => none

/-- The format cascade of `_parse_fecha` on the preprocessed value: the six
literal formats in order, then the generic parse. -/
def cascadaFormatos (anioActual : Nat) (v : List Char) : Option Fecha :=
  match formatoYMD false v with
  | some f => some f
  | none =>
  match formatoYMD true v with
  | some f => some f
  | none =>
  match formatoDMY false v with
  | some f => some f
  | none =>
  match formatoDMY true v with
  | some f => some f
  | none =>
  match formatoDM false anioActual v with
  | some f => some f
  | none =>
  match formatoDM true anioActual v with
  | some f => some f
  | none => fromisoformat v

/-- `_parse_fecha` (nested in `procesar_correo_a_tarea`): `T` replaced by a
space, stripped, then the format cascade. -/
def _parse_fecha (anioActual : Nat) (valor : List Char) : Option Fecha :=
  cascadaFormatos anioActual (recortar (valor.map (fun c => if c = 'T' then ' ' else c)))

/-! ### Relational store (`database.py` models)

Rows relevant to the pipeline.  Nullable columns are `Option`; autoincrement
primary keys are tracked by `sig…` counters on the store state. -/

structure Cliente where
  id : Nat
  nombre : List Char
deriving DecidableEq, Repr

structure Carrier where
  id : Nat
  nombre : List Char
deriving DecidableEq, Repr

structure Servicio where
  id : Nat
  id_carrier : Option (List Char)
  carrier_id : Option Nat
  carrier : Option (List Char)
deriving DecidableEq, Repr

structure TareaProgramada where
  id : Nat
  fecha_inicio : Fecha
  fecha_fin : Fecha
  tipo_tarea : List Char
  tiempo_afectacion : Option (List Char)
  descripcion : Option (List Char)
  carrier_id : Option Nat
  id_interno : Option (List Char)
deriving DecidableEq, Repr

structure TareaServicio where
  tarea_id : Nat
  servicio_id : Nat
deriving DecidableEq, Repr

structure ServicioPendiente where
  id_carrier : List Char
  tarea_id : Nat
deriving DecidableEq, Repr

structure BaseDatos where
  clientes : List Cliente
  carriers : List Carrier
  servicios : List Servicio
  tareas : List TareaProgramada
  enlaces : List TareaServicio
  pendientes : List ServicioPendiente
  sigCliente : Nat
  sigCarrier : Nat
  sigTarea : Nat
deriving DecidableEq, Repr

def baseVacia : BaseDatos :=
  { clientes := [], carriers := [], servicios := [], tareas := [], enlaces := []
    pendientes := [], sigCliente := 1, sigCarrier := 1, sigTarea := 1 }

inductive ErrorBase where
  | integridad
deriving DecidableEq, Repr

/-- Python truthiness of the optional `carrier_id` (`None` and `0` are falsy). -/
def carrierIdFalsy : Option Nat → Bool
  | none => true
  | some n => n = 0

/-- The lookup of `crear_tarea_programada`: only when both key parts are
truthy, `first()` row with equal `carrier_id` and `id_interno` (SQL `=` on the
non-null parameters). -/
def buscarTareaExistente (tareas : List TareaProgramada)
    (carrier_id : Option Nat) (id_interno : Option (List Char)) : Option TareaProgramada :=
  if !carrierIdFalsy carrier_id && !textoFalsy id_interno then
    tareas.find? (fun t => t.carrier_id == carrier_id && t.id_interno == id_interno)
  else none

/-- Violation of the `uix_carrier_interno` unique constraint between a fresh
row and an existing one: both columns non-null and equal (SQL `UNIQUE` never
fires on NULLs). -/
def chocaClaveUnica (nueva contra : TareaProgramada) : Bool :=
  match nueva.carrier_id, nueva.id_interno with
  | some c, some i => contra.carrier_id == some c && contra.id_interno == some i
  | _, _ => false

/-- `list(dict.fromkeys(servicios))`: order-preserving de-duplication, first
occurrence kept. -/
def quitarDuplicados : List Nat → List Nat
  | [] => []
  | n :: resto =>
    let t := quitarDuplicados resto
    n :: t.filter (fun m => m ≠ n)

/-- `crear_tarea_programada` from `database.py`, generalised over rows
(`otros`) committed by a concurrent writer between the lookup and the insert's
commit: the lookup sees `db.tareas`, the commit's constraint check sees
`db.tareas ++ otros`.  The sequential call is the `otros = []` instance.
There is no `except IntegrityError` handler in the source, so a constraint
violation at commit surfaces as an error. -/
def crear_tarea_programada_con (db : BaseDatos) (otros : List TareaProgramada)
    (fecha_inicio fecha_fin : Fecha) (tipo_tarea : List Char) (servicios : List Nat)
    (carrier_id : Option Nat) (tiempo_afectacion descripcion : Option (List Char))
    (id_interno : Option (List Char)) :
    Except ErrorBase (BaseDatos × TareaProgramada × Bool) :=
  let enlazar := fun (db1 : BaseDatos) (tarea : TareaProgramada) (creada : Bool) =>
    let unicos := quitarDuplicados servicios
    let enlaces1 := db1.enlaces.filter (fun e => e.tarea_id ≠ tarea.id)
    let db2 := { db1 with enlaces := enlaces1 ++ unicos.map (fun sid => ⟨tarea.id, sid⟩) }
    Except.ok (db2, tarea, creada)
  match buscarTareaExistente db.tareas carrier_id id_interno with
  | some t =>
    let t' := { t with fecha_inicio := fecha_inicio, fecha_fin := fecha_fin,
                       tipo_tarea := tipo_tarea, tiempo_afectacion := tiempo_afectacion,
                       descripcion := descripcion }
    let db1 := { db with tareas := (db.tareas ++ otros).map (fun u => if u.id = t.id then t' else u) }
    enlazar db1 t' false
  | none =>
    let nueva : TareaProgramada :=
      { id := db.sigTarea, fecha_inicio := fecha_inicio, fecha_fin := fecha_fin,
        tipo_tarea := tipo_tarea, tiempo_afectacion := tiempo_afectacion,
        descripcion := descripcion, carrier_id := carrier_id, id_interno := id_interno }
    if (db.tareas ++ otros).any (chocaClaveUnica nueva) then Except.error ErrorBase.integridad
    else
      let db1 := { db with tareas := db.tareas ++ otros ++ [nueva], sigTarea := db.sigTarea + 1 }
      enlazar db1 nueva true

/-- The sequential `crear_tarea_programada` (no concurrent writer). -/
def crear_tarea_programada (db : BaseDatos)
    (fecha_inicio fecha_fin : Fecha) (tipo_tarea : List Char) (servicios : List Nat)
    (carrier_id : Option Nat) (tiempo_afectacion descripcion : Option (List Char))
    (id_interno : Option (List Char)) :
    Except ErrorBase (BaseDatos × TareaProgramada × Bool) :=
  crear_tarea_programada_con db [] fecha_inicio fecha_fin tipo_tarea servicios
    carrier_id tiempo_afectacion descripcion id_interno

/-- `crear_servicio_pendiente` from `database.py`. -/
def crear_servicio_pendiente (db : BaseDatos) (id_carrier : List Char) (tarea_id : Nat) : BaseDatos :=
  { db with pendientes := db.pendientes ++ [⟨id_carrier, tarea_id⟩] }

/-! ### Carrier-specific identifier filtering (`procesar_correo_a_tarea`) -/

/-- `re.fullmatch(r"CRT-\d{6}", i)`. -/
def esFormatoCRT (i : List Char) : Bool :=
  match i with
  | 'C' :: 'R' :: 'T' :: '-' :: ds => ds.length = 6 && ds.all esDigito
  | _ => false

/-- `i.isdigit()` (ASCII). -/
def esSoloDigitos (i : List Char) : Bool :=
  !i.isEmpty && i.all esDigito

/-- The TELXIUS filtering loop: keep `CRT-\d{6}`, discard the rest. -/
def filtrarTelxius : List (List Char) → List (List Char) × List (List Char)
  | [] => ([], [])
  | i :: resto =>
    let (filtrados, descartados) := filtrarTelxius resto
    if esFormatoCRT i then (i :: filtrados, descartados) else (filtrados, i :: descartados)

/-- The default filtering loop: discard `\d{4}` full matches and purely
numeric identifiers shorter than six digits; keep the rest. -/
def filtrarGenerico : List (List Char) → List (List Char) × List (List Char)
  | [] => ([], [])
  | i :: resto =>
    let (filtrados, descartados) := filtrarGenerico resto
    if i.length = 4 && i.all esDigito then (filtrados, i :: descartados)
    else if esSoloDigitos i && i.length < 6 then (filtrados, i :: descartados)
    else (i :: filtrados, descartados)

/-- The identifier filter of `procesar_correo_a_tarea`
(`if carrier_nombre and carrier_nombre.upper() == "TELXIUS"`), returning
(kept, discarded). -/
def filtrarIdentificadores (carrier_nombre : Option (List Char)) (ids : List (List Char)) :
    List (List Char) × List (List Char) :=
  if !textoFalsy carrier_nombre && mayusculas (carrier_nombre.getD []) = "TELXIUS".toList then
    filtrarTelxius ids
  else filtrarGenerico ids

/-! ### Identifier resolution (`procesar_correo_a_tarea`) -/

/-- `session.get(Servicio, n)`: lookup by primary key. -/
def obtenerServicio (servicios : List Servicio) (n : Nat) : Option Servicio :=
  servicios.find? (fun s => s.id == n)

/-- The per-identifier resolution chain: primary key for numeric identifiers,
then carrier-assigned code, then both again on the digits-only form. -/
def resolverIdentificador (servicios : List Servicio) (ident : List Char) : Option Servicio :=
  let paso1 := if esSoloDigitos ident then obtenerServicio servicios (aNat ident) else none
  match paso1 with
  | some s => some s
  | none =>
    match servicios.find? (fun s => s.id_carrier == some ident) with
    | some s => some s
    | none =>
      let dig := ident.filter esDigito
      if dig.isEmpty then none
      else
        match obtenerServicio servicios (aNat dig) with
        | some s => some s
        | none => servicios.find? (fun s => s.id_carrier == some dig)

/-- The resolution loop: resolved services in match order, unresolved
identifiers to the pending list in encounter order. -/
def resolverIdentificadores (servicios : List Servicio) : List (List Char) → List Servicio × List (List Char)
  | [] => ([], [])
  | ident :: resto =>
    let (res, pend) := resolverIdentificadores servicios resto
    match resolverIdentificador servicios ident with
    | some s => (s :: res, pend)
    | none => (res, ident :: pend)

/-! ### Completion-service boundary

Modelled from the spec: `gpt.consultar_gpt(prompt, cache=...)` of
`gpt_handler.py` is not under `src/`; per the spec it answers a prompt from a
per-prompt cache when caching is enabled and calls the external completion
service otherwise.  `respuestas n` is the external service's answer to the
`n`-th external call; `contador` counts external calls; `registro` logs the
cache flag of each external call. -/

structure EntornoGPT where
  respuestas : Nat → List Char
  contador : Nat
  cache : List (List Char × List Char)
  registro : List Bool

def buscarEnCache (cache : List (List Char × List Char)) (prompt : List Char) : Option (List Char) :=
  match cache.find? (fun par => par.1 == prompt) with
  | some par => some par.2
  | none => none

/-- Modelled from the spec: one `consultar_gpt` call. -/
def consultar_gpt (env : EntornoGPT) (prompt : List Char) (usarCache : Bool) :
    List Char × EntornoGPT :=
  if usarCache then
    match buscarEnCache env.cache prompt with
    | some r => (r, env)
    | none =>
      let r := env.respuestas env.contador
      (r, { env with contador := env.contador + 1, cache := (prompt, r) :: env.cache,
                     registro := env.registro ++ [true] })
  else
    (env.respuestas env.contador,
     { env with contador := env.contador + 1, registro := env.registro ++ [false] })

/-! ### The pipeline: `procesar_correo_a_tarea` (`generar_msg=False` path) -/

inductive ErrorPipeline where
  /-- `IndexError` escaping from `_detectar_datos_correo`. -/
  | deteccionFallida
  /-- `ValueError("No se pudo extraer la tarea del correo")`. -/
  | extraccionFallida
  /-- `ValueError("Fechas con formato inválido")`. -/
  | fechasInvalidas
  /-- `ValueError("La fecha de inicio debe ser anterior al fin")`. -/
  | rangoInvalido
  /-- `IntegrityError` surfacing from the task insert. -/
  | errorIntegridad
deriving DecidableEq, Repr

structure ResultadoPipeline where
  tarea : TareaProgramada
  creada_nueva : Bool
  ids_pendientes : List (List Char)
deriving DecidableEq, Repr

def ejemploCorreo : List Char :=
  ("Ejemplo correo:\nInicio: 02/01/2024 08:00\nFin: 02/01/2024 10:00\n"
    ++ "Trabajo: Actualización de equipos\nServicios: 76208, 78333\n"
    ++ "\nRespuesta esperada:\n"
    ++ "\x7b\"inicio\": \"2024-01-02 08:00\", \"fin\": \"2024-01-02 10:00\", "
    ++ "\"tipo\": \"Actualización de equipos\", \"afectacion\": null, "
    ++ "\"descripcion\": null, \"ids\": [\"76208\", \"78333\"]\x7d").toList

def promptPrincipal (texto_limpio : List Char) : List Char :=
  ("Sos un analista que extrae datos de mantenimientos programados. "
    ++ "Devolvé únicamente un JSON con las claves inicio, fin, tipo, "
    ++ "afectacion, descripcion e ids (lista de servicios).\n\n").toList
  ++ ejemploCorreo ++ "\n\nCorreo:\n".toList ++ texto_limpio

def promptEstricto (texto_limpio : List Char) : List Char :=
  ("Devuelveme ÚNICAMENTE el JSON (sin \x60\x60\x60 ni explicaciones) con las "
    ++ "claves inicio, fin, tipo, afectacion, descripcion, ids.\n\n"
    ++ "Correo:\n").toList ++ texto_limpio

/-- The extraction stage of the pipeline: the fast path if it produced data,
otherwise the two-attempt fallback.  `procesarJson` abstracts
`gpt.procesar_json_response` (modelled from the spec: JSON parsing plus schema
validation, not under `src/`); `none` covers both a missing JSON substring
after the retry and a schema-validation failure, each of which the source
turns into the single extraction-failure `ValueError`. -/
def faseExtraccion (procesarJson : List Char → Option DatosExtraccion)
    (env : EntornoGPT) (texto_limpio : List Char) (datosRegex : Option DatosExtraccion) :
    Option DatosExtraccion × EntornoGPT :=
  match datosRegex with
  | some d => (some d, env)
  | none =>
    let (r1, env1) := consultar_gpt env (promptPrincipal texto_limpio) false
    match buscarJson r1 with
    | some j => (procesarJson j, env1)
    | none =>
      let (r2, env2) := consultar_gpt env1 (promptEstricto texto_limpio) false
      match buscarJson r2 with
      | some j => (procesarJson j, env2)
      | none => (none, env2)

/-- `procesar_correo_a_tarea` from `email_utils.py` on the `generar_msg=False`
path: returns the outcome together with the final store state and
completion-service state. -/
def procesar_correo_a_tarea (anioActual : Nat)
    (procesarJson : List Char → Option DatosExtraccion)
    (db : BaseDatos) (env : EntornoGPT)
    (texto : List Char) (cliente_nombre : List Char) (carrier_nombre0 : Option (List Char)) :
    Except ErrorPipeline ResultadoPipeline × BaseDatos × EntornoGPT :=
  let texto_limpio := _limpiar_correo texto
  match _detectar_datos_correo texto_limpio with
  | none => (Except.error ErrorPipeline.deteccionFallida, db, env)
  | some dd =>
    let carrier1 := if textoFalsy carrier_nombre0 then dd.carrier else carrier_nombre0
    let datosRegex := _extraer_por_regex texto_limpio
    let carrier2 :=
      if textoFalsy carrier1 then
        match buscarEtiqueta "carrier".toList texto_limpio with
        | some g => some (recortar g)
        | none => carrier1
      else carrier1
    let (datosOpt, env') := faseExtraccion procesarJson env texto_limpio datosRegex
    match datosOpt with
    | none => (Except.error ErrorPipeline.extraccionFallida, db, env')
    | some datos =>
      match _parse_fecha anioActual datos.inicio, _parse_fecha anioActual datos.fin with
      | some inicio, some fin =>
        if !(Fecha.antesDe inicio fin) then (Except.error ErrorPipeline.rangoInvalido, db, env')
        else
          let tipo := if !datos.tipo.isEmpty then datos.tipo
                      else if !dd.tipo.isEmpty then dd.tipo else "Programada".toList
          let ids_brutos := datos.ids ++ dd.ids.filter (fun s => !datos.ids.contains s)
          let (ids_filtrados, _descartados) := filtrarIdentificadores carrier2 ids_brutos
          let db1 :=
            match db.clientes.find? (fun c => c.nombre == cliente_nombre) with
            | some _ => db
            | none =>
              { db with clientes := db.clientes ++ [⟨db.sigCliente, cliente_nombre⟩],
                        sigCliente := db.sigCliente + 1 }
          let parCarrier : Option Carrier × BaseDatos :=
            if !textoFalsy carrier2 then
              let nombre := carrier2.getD []
              match db1.carriers.find? (fun c => c.nombre == nombre) with
              | some c => (some c, db1)
              | none =>
                (some ⟨db1.sigCarrier, nombre⟩,
                 { db1 with carriers := db1.carriers ++ [⟨db1.sigCarrier, nombre⟩],
                            sigCarrier := db1.sigCarrier + 1 })
            else (none, db1)
          let carrierO := parCarrier.1
          let db2 := parCarrier.2
          let (servicios, ids_pendientes) := resolverIdentificadores db2.servicios ids_filtrados
          match crear_tarea_programada db2 inicio fin tipo (servicios.map (fun s => s.id))
                  (carrierO.map (fun c => c.id)) datos.afectacion datos.descripcion dd.id_interno with
          | Except.error _ => (Except.error ErrorPipeline.errorIntegridad, db2, env')
          | Except.ok (db3, tarea, creada) =>
            let db4 :=
              match carrierO with
              | some car =>
                { db3 with servicios := db3.servicios.map (fun s =>
                    if (servicios.map (fun x => x.id)).contains s.id then
                      { s with carrier_id := some car.id, carrier := some car.nombre }
                    else s) }
              | none => db3
            let db5 := ids_pendientes.foldl (fun b token => crear_servicio_pendiente b token tarea.id) db4
            (Except.ok ⟨tarea, creada, ids_pendientes⟩, db5, env')
      | _, _ => (Except.error ErrorPipeline.fechasInvalidas, db, env')

/-! ### Spec-side normalizer (for the refinement comparison of the claim)

The claim's phrase list says `confidential`; the source's pattern says
`confidencial`.  `lineaAvisoSegunSpec` follows the claim's words, to be
compared with `lineaAvisoLegal` from the source. -/

def lineaAvisoSegunSpec (l : List Char) : Bool :=
  contieneCI "disclaimer".toList l
  || contieneCI "confidential".toList l
  || contieneCI "aviso legal".toList l
  || contieneCI "confidentiality notice".toList l
  || buscaCorreoPrivado l

/-- The normalizer as the claim states it: the non-blank (trimmed) lines up to
but excluding the first line matching the claim's phrase list. -/
def limpiarSegunSpec (texto : List Char) : List Char :=
  unirConNL ((((dividirLineas texto).map recortar).filter (fun l => !l.isEmpty)).takeWhile
    (fun l => !lineaAvisoSegunSpec l))

/-- The amended normalizer: same shape, with the source's phrase list
(`confidencial` in place of `confidential`). -/
def limpiarEnmendado (texto : List Char) : List Char :=
  unirConNL ((((dividirLineas texto).map recortar).filter (fun l => !l.isEmpty)).takeWhile
    (fun l => !lineaAvisoLegal l))

/-! ### Shared concrete values for witnesses -/

def fechaA : Fecha := ⟨2024, 1, 2, 8, 0, 0⟩
def fechaB : Fecha := ⟨2024, 1, 2, 10, 0, 0⟩

/-- An email none of whose three fast-path fields is present. -/
def correoSinCampos : List Char := "Hola equipo\nSaludos".toList

/-- A completion-service stub that always answers the same valid JSON. -/
def entornoStub : EntornoGPT := ⟨fun _ => "\x7b\"ok\": 1\x7d".toList, 0, [], []⟩

/-- A JSON validator stub that always accepts. -/
def extractorStub : List Char → Option DatosExtraccion :=
  fun _ => some ⟨"2024-01-02 08:00".toList, "2024-01-02 10:00".toList,
                 "X".toList, none, none, []⟩

/-! ### Helper lemmas -/

theorem lineasLimpias_eq (ls : List (List Char)) :
    lineasLimpias ls
      = ((ls.map recortar).filter (fun l => !l.isEmpty)).takeWhile (fun l => !lineaAvisoLegal l) := by
  induction ls with
  | nil => rfl
  | cons l resto ih =>
    simp only [lineasLimpias, List.map_cons, List.filter_cons]
    by_cases he : (recortar l).isEmpty
    · simp [he, ih]
    · by_cases ha : lineaAvisoLegal (recortar l)
      · simp [he, ha, List.takeWhile_cons]
      · simp [he, ha, List.takeWhile_cons, ih]

theorem filtrarTelxius_eq (ids : List (List Char)) :
    filtrarTelxius ids
      = (ids.filter esFormatoCRT, ids.filter (fun i => !esFormatoCRT i)) := by
  induction ids with
  | nil => rfl
  | cons i resto ih =>
    simp only [filtrarTelxius, ih, List.filter_cons]
    by_cases h : esFormatoCRT i <;> simp [h]

/-- The default branch keeps an identifier iff neither discard test fires. -/
theorem filtrarGenerico_eq (ids : List (List Char)) :
    filtrarGenerico ids
      = (ids.filter (fun i => !(i.length = 4 && i.all esDigito)
            && !(esSoloDigitos i && i.length < 6)),
         ids.filter (fun i => (i.length = 4 && i.all esDigito)
            || (esSoloDigitos i && i.length < 6))) := by
  induction ids with
  | nil => rfl
  | cons i resto ih =>
    simp only [filtrarGenerico, ih, List.filter_cons]
    by_cases h1 : i.length = 4 && i.all esDigito
    · simp [h1]
    · by_cases h2 : esSoloDigitos i && i.length < 6 <;> simp [h1, h2]

theorem find?_append_none {α} (p : α → Bool) (l1 l2 : List α)
    (h : l1.find? p = none) : (l1 ++ l2).find? p = l2.find? p := by
  induction l1 with
  | nil => rfl
  | cons a t ih =>
    cases hp : p a
    · simp only [List.cons_append, List.find?_cons, hp] at h ⊢
      exact ih h
    · simp only [List.find?_cons, hp] at h
      exact absurd h (by simp)

theorem map_sin_cambio {α} (l : List α) (f : α → α) (h : ∀ a ∈ l, f a = a) :
    l.map f = l := by
  induction l with
  | nil => rfl
  | cons a t ih =>
    rw [List.map_cons, h a (List.mem_cons_self a t),
      ih (fun b hb => h b (List.mem_cons_of_mem a hb))]

/-- When the sniffer does not crash, the completion-service state returned by
the pipeline is exactly the one produced by the extraction stage: no later
stage touches it. -/
theorem entorno_final (anio : Nat) (pj : List Char → Option DatosExtraccion)
    (db : BaseDatos) (env : EntornoGPT) (texto cn : List Char)
    (carr : Option (List Char)) (dd : DatosDetectados)
    (hdet : _detectar_datos_correo (_limpiar_correo texto) = some dd) :
    (procesar_correo_a_tarea anio pj db env texto cn carr).2.2
      = (faseExtraccion pj env (_limpiar_correo texto)
          (_extraer_por_regex (_limpiar_correo texto))).2 := by
  simp only [procesar_correo_a_tarea, hdet]
  rcases hfe : faseExtraccion pj env (_limpiar_correo texto)
      (_extraer_por_regex (_limpiar_correo texto)) with ⟨datosOpt, env'⟩
  simp only [hfe]
  repeat' split
  all_goals rfl

/-- One pipeline run that reaches the fallback and finds a JSON substring in
the first response makes exactly one fresh (cache-off) external call. -/
theorem una_llamada_fresca (anio : Nat) (pj : List Char → Option DatosExtraccion)
    (db : BaseDatos) (env : EntornoGPT) (texto cn : List Char)
    (carr : Option (List Char)) (dd : DatosDetectados) (r j : List Char)
    (hdet : _detectar_datos_correo (_limpiar_correo texto) = some dd)
    (hreg : _extraer_por_regex (_limpiar_correo texto) = none)
    (hconst : ∀ n, env.respuestas n = r)
    (hjson : buscarJson r = some j) :
    (procesar_correo_a_tarea anio pj db env texto cn carr).2.2.contador = env.contador + 1
    ∧ (procesar_correo_a_tarea anio pj db env texto cn carr).2.2.respuestas = env.respuestas
    ∧ (procesar_correo_a_tarea anio pj db env texto cn carr).2.2.registro
        = env.registro ++ [false] := by
  have h : (procesar_correo_a_tarea anio pj db env texto cn carr).2.2
      = { env with contador := env.contador + 1, registro := env.registro ++ [false] } := by
    rw [entorno_final anio pj db env texto cn carr dd hdet, hreg]
    simp only [faseExtraccion, consultar_gpt, Bool.false_eq_true, if_false, hconst, hjson]
  exact ⟨by rw [h], by rw [h], by rw [h]⟩

/-! ### Claim theorems -/

/-- C5: the fast path is all-or-nothing — when the three field searches all
succeed the regex extractor returns the full record (task type fixed to
`Mantenimiento`, affectation and description unset, identifiers comma-split
and trimmed) and the pipeline leaves the completion-service state untouched
(the fallback is never invoked); when any search fails the extractor returns
no result at all. -/
theorem camino_rapido_todo_o_nada :
    (∀ texto i f s : List Char,
        buscarEtiqueta "inicio".toList texto = some i →
        buscarEtiqueta "fin".toList texto = some f →
        buscarServicios texto = some s →
        _extraer_por_regex texto
          = some ⟨recortar i, recortar f, "Mantenimiento".toList, none, none,
                  idsDesdeCaptura s⟩)
    ∧ (∀ texto : List Char,
        (buscarEtiqueta "inicio".toList texto = none
          ∨ buscarEtiqueta "fin".toList texto = none
          ∨ buscarServicios texto = none) →
        _extraer_por_regex texto = none)
    ∧ (∀ (anio : Nat) (pj : List Char → Option DatosExtraccion) (db : BaseDatos)
          (env : EntornoGPT) (texto cn : List Char) (carr : Option (List Char))
          (d : DatosExtraccion),
        _extraer_por_regex (_limpiar_correo texto) = some d →
        (procesar_correo_a_tarea anio pj db env texto cn carr).2.2 = env) := by
  refine ⟨?_, ?_, ?_⟩
  · intro texto i f s hi hf hs
    simp only [_extraer_por_regex, hi, hf, hs]
  · intro texto h
    rcases h with h | h | h
    · simp only [_extraer_por_regex, h]
    · cases hi : buscarEtiqueta "inicio".toList texto <;>
        simp only [_extraer_por_regex, hi, h]
    · cases hi : buscarEtiqueta "inicio".toList texto <;>
        cases hf : buscarEtiqueta "fin".toList texto <;>
          simp only [_extraer_por_regex, hi, hf, h]
  · intro anio pj db env texto cn carr d hreg
    cases hdet : _detectar_datos_correo (_limpiar_correo texto) with
    | none => simp [procesar_correo_a_tarea, hdet]
    | some dd =>
      rw [entorno_final anio pj db env texto cn carr dd hdet, hreg]
      rfl

/-- C5 applied: a well-formed maintenance email takes the fast path with the
expected record, and a pipeline run on it makes no completion-service call. -/
theorem camino_rapido_todo_o_nada_aplicado :
    _extraer_por_regex "Inicio: 02/01/2024 08:00\nFin: 02/01/2024 10:00\nServicios: 76208, 78333".toList
      = some ⟨"02/01/2024 08:00".toList, "02/01/2024 10:00".toList,
              "Mantenimiento".toList, none, none, ["76208".toList, "78333".toList]⟩
    ∧ (procesar_correo_a_tarea 2026 (fun _ => none) baseVacia ⟨fun _ => [], 0, [], []⟩
        "Inicio: 02/01/2024 08:00\nFin: 02/01/2024 10:00\nServicios: 76208, 78333".toList
        "Cliente".toList none).2.2 = ⟨fun _ => [], 0, [], []⟩
    ∧ _extraer_por_regex "Fin: 02/01/2024 10:00\nServicios: 76208".toList = none := by
  refine ⟨?_, ?_, ?_⟩
  · have h := camino_rapido_todo_o_nada.1
      "Inicio: 02/01/2024 08:00\nFin: 02/01/2024 10:00\nServicios: 76208, 78333".toList
      "02/01/2024 08:00".toList "02/01/2024 10:00".toList "76208, 78333".toList
      (by decide) (by decide) (by decide)
    rw [h]; decide
  · exact camino_rapido_todo_o_nada.2.2 2026 (fun _ => none) baseVacia
      ⟨fun _ => [], 0, [], []⟩ _ _ none
      ⟨"02/01/2024 08:00".toList, "02/01/2024 10:00".toList,
        "Mantenimiento".toList, none, none, ["76208".toList, "78333".toList]⟩
      (by decide)
  · exact camino_rapido_todo_o_nada.2.1 _ (Or.inl (by decide))

/-- C6: when the fast path fails, the fallback parses the first
brace-delimited JSON substring of the completion-service response; with no
JSON in the first response it retries exactly once (two external calls in
total), and if the second attempt also yields no parseable JSON, or the parsed
object fails the schema validation (`pj` returns nothing), the pipeline fails
with the extraction-failure error and the store is returned unchanged — no
task, link or pending row is created. -/
theorem fallback_reintento_y_fallo :
    ∀ (anio : Nat) (pj : List Char → Option DatosExtraccion) (db : BaseDatos)
      (env : EntornoGPT) (texto cn : List Char) (carr : Option (List Char))
      (dd : DatosDetectados),
      _detectar_datos_correo (_limpiar_correo texto) = some dd →
      _extraer_por_regex (_limpiar_correo texto) = none →
      buscarJson (env.respuestas env.contador) = none →
      (buscarJson (env.respuestas (env.contador + 1)) = none
        ∨ ∃ j, buscarJson (env.respuestas (env.contador + 1)) = some j ∧ pj j = none) →
      procesar_correo_a_tarea anio pj db env texto cn carr
        = (Except.error ErrorPipeline.extraccionFallida, db,
           { env with contador := env.contador + 2,
                      registro := env.registro ++ [false, false] }) := by
  intro anio pj db env texto cn carr dd hdet hreg hj1 h2
  have hfe : faseExtraccion pj env (_limpiar_correo texto)
        (_extraer_por_regex (_limpiar_correo texto))
      = (none, { env with contador := env.contador + 2,
                          registro := env.registro ++ [false, false] }) := by
    rw [hreg]
    rcases h2 with h2 | ⟨j, hj, hpj⟩
    · simp [faseExtraccion, consultar_gpt, hj1, h2, Nat.add_assoc]
    · simp [faseExtraccion, consultar_gpt, hj1, hj, hpj, Nat.add_assoc]
  simp only [procesar_correo_a_tarea, hdet, hfe]

/-- C6 applied: an email with none of the three fields, a completion service
that never returns braces, and a failing validator produce the
extraction-failure error after exactly two fresh calls, with the store
untouched. -/
theorem fallback_reintento_y_fallo_aplicado :
    procesar_correo_a_tarea 2026 (fun _ => none) baseVacia
        ⟨fun _ => "sin json".toList, 0, [], []⟩
        "Hola equipo\nSaludos".toList "Cliente".toList none
      = (Except.error ErrorPipeline.extraccionFallida, baseVacia,
         ⟨fun _ => "sin json".toList, 2, [], [false, false]⟩) := by
  exact fallback_reintento_y_fallo 2026 (fun _ => none) baseVacia
    ⟨fun _ => "sin json".toList, 0, [], []⟩
    "Hola equipo\nSaludos".toList "Cliente".toList none
    ⟨none, none, [], "Programada".toList⟩
    (by decide) (by decide) (by decide) (Or.inl (by decide))

/-- C8: every fallback invocation calls the completion service with caching
off — with the service stubbed to a fixed valid JSON answer, one run that
reaches the fallback makes exactly one fresh external call (logged cache-off),
and three chained runs make exactly three, not one. -/
theorem cache_desactivada_en_fallback :
    ∀ (anio : Nat) (pj : List Char → Option DatosExtraccion) (db : BaseDatos)
      (env : EntornoGPT) (texto cn : List Char) (carr : Option (List Char))
      (dd : DatosDetectados) (r j : List Char) (datos : DatosExtraccion),
      _detectar_datos_correo (_limpiar_correo texto) = some dd →
      _extraer_por_regex (_limpiar_correo texto) = none →
      (∀ n, env.respuestas n = r) →
      buscarJson r = some j →
      pj j = some datos →
      ((procesar_correo_a_tarea anio pj db env texto cn carr).2.2.contador
          = env.contador + 1
        ∧ (procesar_correo_a_tarea anio pj db env texto cn carr).2.2.registro
          = env.registro ++ [false])
      ∧ ((procesar_correo_a_tarea anio pj
            (procesar_correo_a_tarea anio pj
              (procesar_correo_a_tarea anio pj db env texto cn carr).2.1
              (procesar_correo_a_tarea anio pj db env texto cn carr).2.2 texto cn carr).2.1
            (procesar_correo_a_tarea anio pj
              (procesar_correo_a_tarea anio pj db env texto cn carr).2.1
              (procesar_correo_a_tarea anio pj db env texto cn carr).2.2 texto cn carr).2.2
            texto cn carr).2.2.contador = env.contador + 3
        ∧ (procesar_correo_a_tarea anio pj
            (procesar_correo_a_tarea anio pj
              (procesar_correo_a_tarea anio pj db env texto cn carr).2.1
              (procesar_correo_a_tarea anio pj db env texto cn carr).2.2 texto cn carr).2.1
            (procesar_correo_a_tarea anio pj
              (procesar_correo_a_tarea anio pj db env texto cn carr).2.1
              (procesar_correo_a_tarea anio pj db env texto cn carr).2.2 texto cn carr).2.2
            texto cn carr).2.2.registro = env.registro ++ [false, false, false]) := by
  intro anio pj db env texto cn carr dd r j datos hdet hreg hconst hjson hpj
  have l1 := una_llamada_fresca anio pj db env texto cn carr dd r j hdet hreg hconst hjson
  have hc1 : ∀ n, (procesar_correo_a_tarea anio pj db env texto cn carr).2.2.respuestas n = r := by
    intro n
    rw [l1.2.1]
    exact hconst n
  have l2 := una_llamada_fresca anio pj
    (procesar_correo_a_tarea anio pj db env texto cn carr).2.1
    (procesar_correo_a_tarea anio pj db env texto cn carr).2.2
    texto cn carr dd r j hdet hreg hc1 hjson
  have hc2 : ∀ n, (procesar_correo_a_tarea anio pj
      (procesar_correo_a_tarea anio pj db env texto cn carr).2.1
      (procesar_correo_a_tarea anio pj db env texto cn carr).2.2
      texto cn carr).2.2.respuestas n = r := by
    intro n
    rw [l2.2.1]
    exact hc1 n
  have l3 := una_llamada_fresca anio pj
    (procesar_correo_a_tarea anio pj
      (procesar_correo_a_tarea anio pj db env texto cn carr).2.1
      (procesar_correo_a_tarea anio pj db env texto cn carr).2.2 texto cn carr).2.1
    (procesar_correo_a_tarea anio pj
      (procesar_correo_a_tarea anio pj db env texto cn carr).2.1
      (procesar_correo_a_tarea anio pj db env texto cn carr).2.2 texto cn carr).2.2
    texto cn carr dd r j hdet hreg hc2 hjson
  refine ⟨⟨l1.1, l1.2.2⟩, ?_, ?_⟩
  · rw [l3.1, l2.1, l1.1]
  · rw [l3.2.2, l2.2.2, l1.2.2]
    simp

/-- C8 applied: with a stub service always answering the same valid JSON,
three chained pipeline runs on a fast-path-less email yield an external-call
counter of 3 (one fresh cache-off call per run), not 1. -/
theorem cache_desactivada_en_fallback_aplicado :
    ((procesar_correo_a_tarea 2026 extractorStub baseVacia entornoStub
        correoSinCampos "Cliente".toList none).2.2.contador = 0 + 1)
    ∧ ((procesar_correo_a_tarea 2026 extractorStub
        (procesar_correo_a_tarea 2026 extractorStub
          (procesar_correo_a_tarea 2026 extractorStub baseVacia entornoStub
            correoSinCampos "Cliente".toList none).2.1
          (procesar_correo_a_tarea 2026 extractorStub baseVacia entornoStub
            correoSinCampos "Cliente".toList none).2.2
          correoSinCampos "Cliente".toList none).2.1
        (procesar_correo_a_tarea 2026 extractorStub
          (procesar_correo_a_tarea 2026 extractorStub baseVacia entornoStub
            correoSinCampos "Cliente".toList none).2.1
          (procesar_correo_a_tarea 2026 extractorStub baseVacia entornoStub
            correoSinCampos "Cliente".toList none).2.2
          correoSinCampos "Cliente".toList none).2.2
        correoSinCampos "Cliente".toList none).2.2.contador = 0 + 3) := by
  have h := cache_desactivada_en_fallback 2026 extractorStub baseVacia entornoStub
    correoSinCampos "Cliente".toList none
    ⟨none, none, [], "Programada".toList⟩
    "\x7b\"ok\": 1\x7d".toList "\x7b\"ok\": 1\x7d".toList
    ⟨"2024-01-02 08:00".toList, "2024-01-02 10:00".toList, "X".toList, none, none, []⟩
    (by decide) (by decide) (fun n => rfl) (by decide) rfl
  exact ⟨h.1.1, h.2.1⟩

/-- C1: upsert idempotence — on a store with no row for the truthy key
`(c, i)` (and no id clash with the next autoincrement value), a first call
inserts (freshly-created flag `true`), a second call with the same key and a
different description updates in place (flag `false`), and afterwards exactly
one row carries the key, with the second call's description. -/
theorem tarea_upsert_idempotente
    (db : BaseDatos) (c : Nat) (i : List Char)
    (fi1 ff1 fi2 ff2 : Fecha) (tp1 tp2 : List Char) (sv1 sv2 : List Nat)
    (af1 af2 d1 d2 : Option (List Char))
    (hc : c ≠ 0) (hi : i ≠ [])
    (hclave : ∀ t ∈ db.tareas, (t.carrier_id == some c && t.id_interno == some i) = false)
    (hids : ∀ t ∈ db.tareas, t.id ≠ db.sigTarea) :
    ∃ (db1 db2 : BaseDatos) (t1 t2 : TareaProgramada),
      crear_tarea_programada db fi1 ff1 tp1 sv1 (some c) af1 d1 (some i)
        = Except.ok (db1, t1, true)
      ∧ crear_tarea_programada db1 fi2 ff2 tp2 sv2 (some c) af2 d2 (some i)
        = Except.ok (db2, t2, false)
      ∧ db2.tareas.filter (fun t => t.carrier_id == some c && t.id_interno == some i) = [t2]
      ∧ t2.descripcion = d2 := by
  have hcond : (!carrierIdFalsy (some c) && !textoFalsy (some i)) = true := by
    cases i with
    | nil => exact absurd rfl hi
    | cons a l => simp [carrierIdFalsy, textoFalsy, hc]
  have hb1 : buscarTareaExistente db.tareas (some c) (some i) = none := by
    unfold buscarTareaExistente
    rw [if_pos hcond, List.find?_eq_none]
    intro t ht
    simp [hclave t ht]
  set nueva : TareaProgramada :=
    ⟨db.sigTarea, fi1, ff1, tp1, af1, d1, some c, some i⟩ with hnueva
  have hany : (db.tareas ++ []).any (chocaClaveUnica nueva) = false := by
    rw [List.append_nil, List.any_eq_false]
    intro t ht
    show ¬ (t.carrier_id == some c && t.id_interno == some i) = true
    rw [hclave t ht]
    simp
  have e1 : crear_tarea_programada db fi1 ff1 tp1 sv1 (some c) af1 d1 (some i)
      = Except.ok
          ({ db with
              tareas := db.tareas ++ [] ++ [nueva], sigTarea := db.sigTarea + 1,
              enlaces := db.enlaces.filter (fun e => e.tarea_id ≠ nueva.id)
                ++ (quitarDuplicados sv1).map (fun sid => ⟨nueva.id, sid⟩) },
            nueva, true) := by
    unfold crear_tarea_programada crear_tarea_programada_con
    rw [hb1]
    simp only [hany, Bool.false_eq_true, if_false]
  have hb2 : buscarTareaExistente (db.tareas ++ [] ++ [nueva]) (some c) (some i)
      = some nueva := by
    unfold buscarTareaExistente
    rw [if_pos hcond, List.append_nil, find?_append_none _ _ _ ?hno]
    case hno =>
      rw [List.find?_eq_none]
      intro t ht
      simp [hclave t ht]
    simp [List.find?_cons]
  set dbA : BaseDatos :=
    { db with
        tareas := db.tareas ++ [] ++ [nueva], sigTarea := db.sigTarea + 1,
        enlaces := db.enlaces.filter (fun e => e.tarea_id ≠ nueva.id)
          ++ (quitarDuplicados sv1).map (fun sid => ⟨nueva.id, sid⟩) } with hdbA
  set tFinal : TareaProgramada :=
    ⟨db.sigTarea, fi2, ff2, tp2, af2, d2, some c, some i⟩ with htF
  have e2 : crear_tarea_programada dbA fi2 ff2 tp2 sv2 (some c) af2 d2 (some i)
      = Except.ok
          ({ dbA with
              tareas := (dbA.tareas ++ []).map
                (fun (u : TareaProgramada) => if u.id = nueva.id then tFinal else u),
              enlaces := dbA.enlaces.filter (fun e => e.tarea_id ≠ tFinal.id)
                ++ (quitarDuplicados sv2).map (fun sid => ⟨tFinal.id, sid⟩) },
            tFinal, false) := by
    unfold crear_tarea_programada crear_tarea_programada_con
    have h : dbA.tareas = db.tareas ++ [] ++ [nueva] := rfl
    rw [h, hb2]
  have htareas2 : (dbA.tareas ++ []).map
        (fun (u : TareaProgramada) => if u.id = nueva.id then tFinal else u)
      = db.tareas ++ [tFinal] := by
    have h : dbA.tareas ++ [] = db.tareas ++ [nueva] := by
      simp [hdbA]
    rw [h, List.map_append, map_sin_cambio]
    · simp
    · intro t ht
      rw [if_neg]
      exact hids t ht
  refine ⟨dbA, _, nueva, tFinal, e1, e2, ?_, rfl⟩
  show ((dbA.tareas ++ []).map
      (fun (u : TareaProgramada) => if u.id = nueva.id then tFinal else u)).filter
      (fun t => t.carrier_id == some c && t.id_interno == some i) = [tFinal]
  have hnil : db.tareas.filter (fun t => t.carrier_id == some c && t.id_interno == some i)
      = [] :=
    List.filter_eq_nil_iff.mpr (fun t ht => by simp [hclave t ht])
  rw [htareas2, List.filter_append, hnil]
  simp

/-- C1 applied: two upserts with the key `(1, "SWX0000001")` and descriptions
`a` then `b` on the empty store. -/
theorem tarea_upsert_idempotente_aplicado :
    ∃ (db1 db2 : BaseDatos) (t1 t2 : TareaProgramada),
      crear_tarea_programada baseVacia fechaA fechaB "Mantenimiento".toList []
          (some 1) none (some "a".toList) (some "SWX0000001".toList)
        = Except.ok (db1, t1, true)
      ∧ crear_tarea_programada db1 fechaA fechaB "Mantenimiento".toList []
          (some 1) none (some "b".toList) (some "SWX0000001".toList)
        = Except.ok (db2, t2, false)
      ∧ db2.tareas.filter
          (fun t => t.carrier_id == some 1 && t.id_interno == some "SWX0000001".toList)
          = [t2]
      ∧ t2.descripcion = some "b".toList :=
  tarea_upsert_idempotente baseVacia 1 "SWX0000001".toList fechaA fechaB fechaA fechaB
    "Mantenimiento".toList "Mantenimiento".toList [] [] none none
    (some "a".toList) (some "b".toList) (by decide) (by decide)
    (fun t ht => absurd ht (List.not_mem_nil t))
    (fun t ht => absurd ht (List.not_mem_nil t))

/-- Links of one task after a replacement: the old links of the task are all
deleted, the new ones all carry the task id. -/
theorem filtra_reemplazo (l m : List TareaServicio) (k : Nat)
    (hm : ∀ e ∈ m, e.tarea_id = k) :
    (l.filter (fun e => e.tarea_id ≠ k) ++ m).filter (fun e => e.tarea_id == k) = m := by
  rw [List.filter_append]
  have h1 : (l.filter (fun e => e.tarea_id ≠ k)).filter (fun e => e.tarea_id == k) = [] := by
    rw [List.filter_eq_nil_iff]
    intro e he
    have := (List.mem_filter.mp he).2
    simp at this ⊢
    exact this
  have h2 : m.filter (fun e => e.tarea_id == k) = m := by
    rw [List.filter_eq_self]
    intro e he
    simp [hm e he]
  rw [h1, h2, List.nil_append]

/-- C2: linkage replacement is total — every successful upsert leaves the
task's link rows exactly one per service id of the order-preserving
de-duplicated input (first occurrence kept); de-duplication keeps first
occurrences in order; and the claim's `[1,2,3]` then `[2,3,4]` scenario ends
with links exactly `{2,3,4}`. -/
theorem enlaces_reemplazo_total :
    (∀ (db : BaseDatos) (fi ff : Fecha) (tp : List Char) (svcs : List Nat)
        (cid : Option Nat) (af d ii : Option (List Char))
        (db' : BaseDatos) (t : TareaProgramada) (creada : Bool),
        crear_tarea_programada db fi ff tp svcs cid af d ii = Except.ok (db', t, creada) →
        db'.enlaces.filter (fun e => e.tarea_id == t.id)
          = (quitarDuplicados svcs).map (fun sid => ⟨t.id, sid⟩))
    ∧ quitarDuplicados [2, 3, 2, 4, 3] = [2, 3, 4]
    ∧ (∃ (db1 db2 : BaseDatos) (t1 t2 : TareaProgramada),
        crear_tarea_programada baseVacia fechaA fechaB "Mantenimiento".toList [1, 2, 3]
            (some 1) none none (some "SWX0000001".toList) = Except.ok (db1, t1, true)
        ∧ crear_tarea_programada db1 fechaA fechaB "Mantenimiento".toList [2, 3, 4]
            (some 1) none none (some "SWX0000001".toList) = Except.ok (db2, t2, false)
        ∧ db2.enlaces.filter (fun e => e.tarea_id == t2.id)
            = [⟨t2.id, 2⟩, ⟨t2.id, 3⟩, ⟨t2.id, 4⟩]) := by
  refine ⟨?_, by decide, ?_⟩
  · intro db fi ff tp svcs cid af d ii db' t creada h
    unfold crear_tarea_programada crear_tarea_programada_con at h
    cases hb : buscarTareaExistente db.tareas cid ii with
    | some t0 =>
      rw [hb] at h
      simp only [Except.ok.injEq, Prod.mk.injEq] at h
      obtain ⟨hdb, ht, _⟩ := h
      subst hdb ht
      apply filtra_reemplazo
      intro e he
      obtain ⟨sid, hmem, heq⟩ := List.mem_map.mp he
      rw [← heq]
    | none =>
      rw [hb] at h
      simp only [List.append_nil] at h
      cases hany : db.tareas.any (chocaClaveUnica
          ⟨db.sigTarea, fi, ff, tp, af, d, cid, ii⟩) with
      | true =>
        rw [hany] at h
        simp at h
      | false =>
        rw [hany] at h
        simp only [Bool.false_eq_true, if_false, Except.ok.injEq, Prod.mk.injEq] at h
        obtain ⟨hdb, ht, _⟩ := h
        subst hdb ht
        apply filtra_reemplazo
        intro e he
        obtain ⟨sid, hmem, heq⟩ := List.mem_map.mp he
        rw [← heq]
  · exact ⟨_, _, _, _, rfl, rfl, by decide⟩

/-- C2 applied: a successful upsert with the duplicated list `[1, 2, 2, 3]`
leaves exactly the links `[1, 2, 3]` for the task. -/
theorem enlaces_reemplazo_total_aplicado :
    ∃ (db' : BaseDatos) (t : TareaProgramada) (creada : Bool),
      crear_tarea_programada baseVacia fechaA fechaB "Mantenimiento".toList [1, 2, 2, 3]
          (some 1) none none (some "SWX0000002".toList) = Except.ok (db', t, creada)
      ∧ db'.enlaces.filter (fun e => e.tarea_id == t.id)
          = (quitarDuplicados [1, 2, 2, 3]).map (fun sid => ⟨t.id, sid⟩) := by
  obtain ⟨db', t, creada, h⟩ :
      ∃ (db' : BaseDatos) (t : TareaProgramada) (creada : Bool),
        crear_tarea_programada baseVacia fechaA fechaB "Mantenimiento".toList [1, 2, 2, 3]
          (some 1) none none (some "SWX0000002".toList) = Except.ok (db', t, creada) :=
    ⟨_, _, _, rfl⟩
  exact ⟨db', t, creada, h,
    enlaces_reemplazo_total.1 baseVacia fechaA fechaB "Mantenimiento".toList [1, 2, 2, 3]
      (some 1) none none (some "SWX0000002".toList) db' t creada h⟩

/-- C9 counterexample: with a concurrent writer having committed a row with
the same `(carrier, internal id)` key between the lookup and the commit, the
upsert surfaces the uniqueness violation as an error instead of recovering —
there is no `except IntegrityError` handler in `crear_tarea_programada`. -/
theorem carrera_integridad_contraejemplo :
    crear_tarea_programada_con baseVacia
        [⟨7, fechaA, fechaB, "M".toList, none, none, some 1, some "SWX0000007".toList⟩]
        fechaA fechaB "M".toList [] (some 1) none none (some "SWX0000007".toList)
      = Except.error ErrorBase.integridad := rfl

/-- C9 (amended): when the lookup finds no row but a concurrent writer's row
with the same key is visible at commit time, the insert's constraint violation
propagates to the caller as an integrity error; the upsert performs no
re-query and no update. -/
theorem carrera_integridad_se_propaga
    (db : BaseDatos) (intruso : TareaProgramada) (fi ff : Fecha) (tp : List Char)
    (svcs : List Nat) (c : Nat) (i : List Char) (af d : Option (List Char))
    (hb : buscarTareaExistente db.tareas (some c) (some i) = none)
    (hcar : intruso.carrier_id = some c) (hint : intruso.id_interno = some i) :
    crear_tarea_programada_con db [intruso] fi ff tp svcs (some c) af d (some i)
      = Except.error ErrorBase.integridad := by
  unfold crear_tarea_programada_con
  rw [hb]
  have h : chocaClaveUnica ⟨db.sigTarea, fi, ff, tp, af, d, some c, some i⟩ intruso = true := by
    simp only [chocaClaveUnica, hcar, hint]
    simp
  simp [List.any_append, h]

/-- C9 amended theorem applied at a concrete store and interloper row. -/
theorem carrera_integridad_se_propaga_aplicado :
    crear_tarea_programada_con baseVacia
        [⟨9, fechaA, fechaB, "M".toList, none, none, some 2, some "SWX0000009".toList⟩]
        fechaA fechaB "M".toList [5] (some 2) none none (some "SWX0000009".toList)
      = Except.error ErrorBase.integridad :=
  carrera_integridad_se_propaga baseVacia
    ⟨9, fechaA, fechaB, "M".toList, none, none, some 2, some "SWX0000009".toList⟩
    fechaA fechaB "M".toList [5] 2 "SWX0000009".toList none none
    (by decide) rfl rfl

/-- C10 counterexample: on `"hola\nconfidential\nchau"` the claim's normalizer
truncates at the `confidential` line but the source keeps it — the source's
disclaimer pattern contains the Spanish `confidencial`, which the English word
`confidential` does not match. -/
theorem normalizador_contraejemplo :
    _limpiar_correo "hola\nconfidential\nchau".toList
        = "hola\nconfidential\nchau".toList
      ∧ limpiarSegunSpec "hola\nconfidential\nchau".toList = "hola".toList
      ∧ _limpiar_correo "hola\nconfidential\nchau".toList
        ≠ limpiarSegunSpec "hola\nconfidential\nchau".toList := by
  refine ⟨by decide, by decide, by decide⟩

/-- C10 (amended): the normalizer outputs the trimmed non-blank lines up to
but excluding the first line matching the source's disclaimer alternation
(`disclaimer`, `confidencial`, `aviso legal`, `confidentiality notice`, or the
Spanish correo-privado phrase, case-insensitively); it never errors and empty
input yields empty output. -/
theorem normalizador_enmendado :
    (∀ texto : List Char, _limpiar_correo texto = limpiarEnmendado texto)
      ∧ _limpiar_correo [] = [] := by
  refine ⟨fun texto => ?_, rfl⟩
  unfold _limpiar_correo limpiarEnmendado
  rw [lineasLimpias_eq]

/-- C3: per-identifier resolution order — primary key first for purely numeric
identifiers (so a primary-key match beats any carrier-code match), then the
carrier-assigned code, then both again on the digits-only form, and the
pending list collects exactly the unresolved identifiers in encounter
order. -/
theorem resolucion_orden :
    (∀ (svs : List Servicio) (ident : List Char) (s : Servicio),
        esSoloDigitos ident = true →
        obtenerServicio svs (aNat ident) = some s →
        resolverIdentificador svs ident = some s)
    ∧ (∀ (svs : List Servicio) (ident : List Char) (s : Servicio),
        (esSoloDigitos ident = false ∨ obtenerServicio svs (aNat ident) = none) →
        svs.find? (fun x => x.id_carrier == some ident) = some s →
        resolverIdentificador svs ident = some s)
    ∧ (∀ (svs : List Servicio) (ident : List Char),
        (esSoloDigitos ident = false ∨ obtenerServicio svs (aNat ident) = none) →
        svs.find? (fun x => x.id_carrier == some ident) = none →
        ident.filter esDigito ≠ [] →
        resolverIdentificador svs ident
          = (match obtenerServicio svs (aNat (ident.filter esDigito)) with
             | some s => some s
             | none => svs.find? (fun x => x.id_carrier == some (ident.filter esDigito))))
    ∧ (∀ (svs : List Servicio) (ids : List (List Char)),
        (resolverIdentificadores svs ids).2
          = ids.filter (fun i => (resolverIdentificador svs i).isNone)) := by
  refine ⟨?_, ?_, ?_, ?_⟩
  · intro svs ident s hd hpk
    simp [resolverIdentificador, hd, hpk]
  · intro svs ident s hpaso1 hcod
    rcases hpaso1 with h | h
    · simp [resolverIdentificador, h, hcod]
    · by_cases hd : esSoloDigitos ident <;> simp [resolverIdentificador, hd, h, hcod]
  · intro svs ident hpaso1 hcod hdig
    have hne : (ident.filter esDigito).isEmpty = false := by
      cases hfe : (ident.filter esDigito).isEmpty
      · rfl
      · exact absurd (List.isEmpty_iff.mp hfe) hdig
    rcases hpaso1 with h | h
    · simp [resolverIdentificador, h, hcod, hne]
    · by_cases hd : esSoloDigitos ident <;> simp [resolverIdentificador, hd, h, hcod, hne]
  · intro svs ids
    induction ids with
    | nil => rfl
    | cons i resto ih =>
      simp only [resolverIdentificadores, List.filter_cons]
      cases hr : resolverIdentificador svs i <;> simp [hr, ih]

/-- C3 applied: a catalog where `76208` is both a primary key and a different
service's carrier code; the identifier resolves to the primary-key match, and
an unresolvable identifier lands in the pending list. -/
theorem resolucion_orden_aplicado :
    resolverIdentificador
        [⟨76208, none, none, none⟩, ⟨999, some "76208".toList, none, none⟩]
        "76208".toList
      = some ⟨76208, none, none, none⟩
    ∧ (resolverIdentificadores
        [⟨76208, none, none, none⟩, ⟨999, some "76208".toList, none, none⟩]
        ["76208".toList, "ZZZ".toList]).2 = ["ZZZ".toList] := by
  constructor
  · exact resolucion_orden.1
      [⟨76208, none, none, none⟩, ⟨999, some "76208".toList, none, none⟩]
      "76208".toList ⟨76208, none, none, none⟩ (by decide) (by decide)
  · rw [resolucion_orden.2.2.2
      [⟨76208, none, none, none⟩, ⟨999, some "76208".toList, none, none⟩]
      ["76208".toList, "ZZZ".toList]]
    decide

/-- C4: the identifier filter — for a carrier whose upper-case name is
`TELXIUS` exactly the `CRT-\d{6}` identifiers are kept; for any other carrier
(or none) exactly the four-digit and short purely-numeric identifiers are
discarded; including the claim's two concrete instances. -/
theorem filtrado_carrier :
    (∀ (nombre : Option (List Char)) (ids : List (List Char)),
        textoFalsy nombre = false →
        mayusculas (nombre.getD []) = "TELXIUS".toList →
        filtrarIdentificadores nombre ids
          = (ids.filter esFormatoCRT, ids.filter (fun i => !esFormatoCRT i)))
    ∧ (∀ (nombre : Option (List Char)) (ids : List (List Char)),
        textoFalsy nombre = true ∨ mayusculas (nombre.getD []) ≠ "TELXIUS".toList →
        filtrarIdentificadores nombre ids
          = (ids.filter (fun i => !(i.length = 4 && i.all esDigito)
                && !(esSoloDigitos i && i.length < 6)),
             ids.filter (fun i => (i.length = 4 && i.all esDigito)
                || (esSoloDigitos i && i.length < 6))))
    ∧ filtrarIdentificadores (some "TELXIUS".toList) ["CRT-000123".toList, "76208".toList]
        = (["CRT-000123".toList], ["76208".toList])
    ∧ filtrarIdentificadores none ["1234".toList, "123456".toList]
        = (["123456".toList], ["1234".toList]) := by
  refine ⟨?_, ?_, by decide, by decide⟩
  · intro nombre ids hf ht
    simp [filtrarIdentificadores, hf, ht, filtrarTelxius_eq]
  · intro nombre ids h
    rcases h with h | h
    · simp [filtrarIdentificadores, h, filtrarGenerico_eq]
    · by_cases hf : textoFalsy nombre
      · simp [filtrarIdentificadores, hf, filtrarGenerico_eq]
      · simp only [filtrarIdentificadores]
        rw [if_neg]
        · rw [filtrarGenerico_eq]
        · simp only [Bool.and_eq_true, Bool.not_eq_true', decide_eq_true_eq, not_and]
          intro _
          exact fun hc => h (by simpa using hc)

theorem reemplazarAnio_valido (anio : Nat) (h1 : 1 ≤ anio) (h2 : anio ≤ 9999) :
    reemplazarAnio anio ⟨1900, 3, 5, 10, 0, 0⟩ = some ⟨anio, 3, 5, 10, 0, 0⟩ := by
  unfold reemplazarAnio
  rw [if_pos]
  simp [diasEnMes, h1, h2]

/-- C7: the two date formats denote the same instant; the no-year format
substitutes the current year (via the modelled `dt.replace`); when every
literal format and the generic parse fail the pipeline reports the
invalid-date-format error; and a start not strictly before the end reports the
invalid-range error — in both failure cases with the store unchanged. -/
theorem fechas_formato_y_rango :
    (∀ anio : Nat,
        _parse_fecha anio "02/01/2024 08:00".toList = some ⟨2024, 1, 2, 8, 0, 0⟩
        ∧ _parse_fecha anio "2024-01-02 08:00".toList = some ⟨2024, 1, 2, 8, 0, 0⟩)
    ∧ (∀ anio : Nat,
        _parse_fecha anio "05/03 10:00".toList = reemplazarAnio anio ⟨1900, 3, 5, 10, 0, 0⟩)
    ∧ (∀ anio : Nat, 1 ≤ anio → anio ≤ 9999 →
        reemplazarAnio anio ⟨1900, 3, 5, 10, 0, 0⟩ = some ⟨anio, 3, 5, 10, 0, 0⟩)
    ∧ (∀ (anio : Nat) (pj : List Char → Option DatosExtraccion) (db : BaseDatos)
          (env : EntornoGPT) (texto cn : List Char) (carr : Option (List Char))
          (dd : DatosDetectados) (datos : DatosExtraccion),
        _detectar_datos_correo (_limpiar_correo texto) = some dd →
        _extraer_por_regex (_limpiar_correo texto) = some datos →
        (_parse_fecha anio datos.inicio = none ∨ _parse_fecha anio datos.fin = none) →
        procesar_correo_a_tarea anio pj db env texto cn carr
          = (Except.error ErrorPipeline.fechasInvalidas, db, env))
    ∧ (∀ (anio : Nat) (pj : List Char → Option DatosExtraccion) (db : BaseDatos)
          (env : EntornoGPT) (texto cn : List Char) (carr : Option (List Char))
          (dd : DatosDetectados) (datos : DatosExtraccion) (fi ff : Fecha),
        _detectar_datos_correo (_limpiar_correo texto) = some dd →
        _extraer_por_regex (_limpiar_correo texto) = some datos →
        _parse_fecha anio datos.inicio = some fi →
        _parse_fecha anio datos.fin = some ff →
        Fecha.antesDe fi ff = false →
        procesar_correo_a_tarea anio pj db env texto cn carr
          = (Except.error ErrorPipeline.rangoInvalido, db, env)) := by
  refine ⟨fun anio => ⟨rfl, rfl⟩, ?_, reemplazarAnio_valido, ?_, ?_⟩
  · intro anio
    have hpre : _parse_fecha anio "05/03 10:00".toList
        = cascadaFormatos anio "05/03 10:00".toList := by
      unfold _parse_fecha
      rw [show recortar (("05/03 10:00".toList).map (fun c => if c = 'T' then ' ' else c))
            = "05/03 10:00".toList from by decide]
    rw [hpre]
    cases hR : reemplazarAnio anio ⟨1900, 3, 5, 10, 0, 0⟩ <;>
      simp only [cascadaFormatos, formatoDM, horaMinSeg, intentar,
        show formatoYMD false "05/03 10:00".toList = none from by decide,
        show formatoYMD true "05/03 10:00".toList = none from by decide,
        show formatoDMY false "05/03 10:00".toList = none from by decide,
        show formatoDMY true "05/03 10:00".toList = none from by decide,
        show fromisoformat "05/03 10:00".toList = none from by decide,
        show candidatosDia "05/03 10:00".toList
            = [(5, ['/', '0', '3', ' ', '1', '0', ':', '0', '0'])] from by decide,
        show trasLiteral '/' ['/', '0', '3', ' ', '1', '0', ':', '0', '0']
            = some ['0', '3', ' ', '1', '0', ':', '0', '0'] from by decide,
        show candidatosMes ['0', '3', ' ', '1', '0', ':', '0', '0']
            = [(3, [' ', '1', '0', ':', '0', '0'])] from by decide,
        show trasLiteral ' ' [' ', '1', '0', ':', '0', '0']
            = some ['1', '0', ':', '0', '0'] from by decide,
        show candidatosHora ['1', '0', ':', '0', '0']
            = [(10, [':', '0', '0']), (1, ['0', ':', '0', '0'])] from by decide,
        show trasLiteral ':' [':', '0', '0'] = some ['0', '0'] from by decide,
        show trasLiteral ':' ['0', ':', '0', '0'] = none from by decide,
        show candidatosMinSeg ['0', '0'] = [(0, ([] : List Char)), (0, ['0'])] from by decide,
        show trasLiteral ':' ([] : List Char) = none from by decide,
        show trasLiteral ':' ['0'] = none from by decide,
        show valorDe2 '0' '5' = 5 from by decide,
        show valorDe2 '0' '3' = 3 from by decide,
        show valorDe2 '1' '0' = 10 from by decide,
        show valorDe2 '0' '0' = 0 from by decide,
        show mkFecha 1900 3 5 10 0 0 = some ⟨1900, 3, 5, 10, 0, 0⟩ from by decide,
        Option.some_bind, Option.none_bind, hR, Bool.false_eq_true, if_false, if_true,
        List.isEmpty_nil, List.isEmpty_cons]
  · intro anio pj db env texto cn carr dd datos hdet hreg hfalla
    rcases hfalla with h | h
    · cases hff : _parse_fecha anio datos.fin <;>
        simp only [procesar_correo_a_tarea, hdet, hreg, faseExtraccion, h, hff]
    · cases hfi : _parse_fecha anio datos.inicio <;>
        simp only [procesar_correo_a_tarea, hdet, hreg, faseExtraccion, h, hfi]
  · intro anio pj db env texto cn carr dd datos fi ff hdet hreg hfi hff hlt
    simp only [procesar_correo_a_tarea, hdet, hreg, faseExtraccion, hfi, hff, hlt,
      Bool.not_false, if_true]

/-- C7 applied at concrete inputs: both formats parse to 2 January 2024 08:00;
the current year 2026 is substituted for `05/03 10:00`; a pipeline run whose
email has an unparseable start date fails with the format error, and one whose
start does not precede its end fails with the range error. -/
theorem fechas_formato_y_rango_aplicado :
    _parse_fecha 2026 "02/01/2024 08:00".toList = some ⟨2024, 1, 2, 8, 0, 0⟩
    ∧ _parse_fecha 2026 "2024-01-02 08:00".toList = some ⟨2024, 1, 2, 8, 0, 0⟩
    ∧ _parse_fecha 2026 "05/03 10:00".toList = some ⟨2026, 3, 5, 10, 0, 0⟩
    ∧ procesar_correo_a_tarea 2026 (fun _ => none) baseVacia
        ⟨fun _ => [], 0, [], []⟩
        "Inicio: banana\nFin: banana\nServicios: 9".toList
        "Cliente".toList none
      = (Except.error ErrorPipeline.fechasInvalidas, baseVacia, ⟨fun _ => [], 0, [], []⟩)
    ∧ procesar_correo_a_tarea 2026 (fun _ => none) baseVacia
        ⟨fun _ => [], 0, [], []⟩
        "Inicio: 02/01/2024 10:00\nFin: 02/01/2024 08:00\nServicios: 9".toList
        "Cliente".toList none
      = (Except.error ErrorPipeline.rangoInvalido, baseVacia, ⟨fun _ => [], 0, [], []⟩) := by
  refine ⟨(fechas_formato_y_rango.1 2026).1, (fechas_formato_y_rango.1 2026).2, ?_, ?_, ?_⟩
  · rw [fechas_formato_y_rango.2.1 2026,
      fechas_formato_y_rango.2.2.1 2026 (by decide) (by decide)]
  · exact fechas_formato_y_rango.2.2.2.1 2026 (fun _ => none) baseVacia
      ⟨fun _ => [], 0, [], []⟩ _ _ none
      ⟨none, none, [['9']], "Programada".toList⟩
      ⟨"banana".toList, "banana".toList, "Mantenimiento".toList, none, none, [['9']]⟩
      (by decide) (by decide) (Or.inl (by decide))
  · exact fechas_formato_y_rango.2.2.2.2 2026 (fun _ => none) baseVacia
      ⟨fun _ => [], 0, [], []⟩ _ _ none
      ⟨none, none,
        [['0','2'], ['0','1'], ['2','0','2','4'], ['1','0'], ['0','0'],
         ['0','2'], ['0','1'], ['2','0','2','4'], ['0','8'], ['0','0'], ['9']],
        "Programada".toList⟩
      ⟨"02/01/2024 10:00".toList, "02/01/2024 08:00".toList,
        "Mantenimiento".toList, none, none, [['9']]⟩
      ⟨2024, 1, 2, 10, 0, 0⟩ ⟨2024, 1, 2, 8, 0, 0⟩
      (by decide) (by decide) (by decide) (by decide) (by decide)

/-- C4 applied at concrete inputs. -/
theorem filtrado_carrier_aplicado :
    filtrarIdentificadores (some "Telxius".toList) ["CRT-000123".toList, "76208".toList]
        = (["CRT-000123".toList], ["76208".toList])
    ∧ filtrarIdentificadores (some "METROTEL".toList) ["1234".toList, "123456".toList]
        = (["123456".toList], ["1234".toList]) := by
  constructor
  · rw [filtrado_carrier.1 (some "Telxius".toList) _ (by decide) (by decide)]
    decide
  · rw [filtrado_carrier.2.1 (some "METROTEL".toList) _ (Or.inr (by decide))]
    decide

end Sandy







